import Mathlib

/-!
Verification of the K-Means-ECommerce clustering script (`project.py`).

The script assigns each sales record to one of three revenue tiers by
nearest-centroid distance, compares the assignment with a pre-existing
label encoded in three textual flag fields, aggregates per-cluster
statistics (average revenue, dominant products, a fixed characteristic
string), and emits summary counts (total records, matching clusters,
match percentage).

Real numbers of the Python program (floats) are modelled as rationals
(`ℚ`); Python `None` becomes `Option.none`; a raised exception becomes
`Except.error` / `Option.none` of the corresponding operation.
-/

/-- Embeds a parsed sales record (one row of the input JSON after
`load_data`): `Data id`, `Nama Toko`, `nama Produk`, numeric `Omset`,
and the three textual flag fields `Kluster 1..3`. -/
structure SalesRecord where
  dataId : String
  namaToko : String
  namaProduk : String
  omset : ℚ
  kluster1 : String
  kluster2 : String
  kluster3 : String

/-- Embeds one element of the `results` list built in `main`: the record
fields plus `Calculated Cluster`, `Existing Cluster` (None when no flag
matched) and the distance list. -/
structure ResultRec where
  dataId : String
  namaToko : String
  namaProduk : String
  omset : ℚ
  calculatedCluster : Nat
  existingCluster : Option Nat
  distances : List ℚ

/-- Embeds `calculate_distances(omset, centroids)`:
`[abs(omset - centroid) for centroid in centroids]`. -/
def calculate_distances (omset : ℚ) (centroids : List ℚ) : List ℚ :=
  centroids.map (fun centroid => |omset - centroid|)

/-- Embeds Python `min` on a list of floats: `none` on the empty list
(Python raises `ValueError`), otherwise a left fold keeping the least
value seen so far. -/
def listMin : List ℚ → Option ℚ
  | [] => none
  | d :: ds => some (ds.foldl min d)

/-- Embeds Python `list.index(x)`: position of the first element equal
to `x` (the callers below only use it when `x` is a member). -/
def firstIdxOf (x : ℚ) : List ℚ → Nat
  | [] => 0
  | d :: ds => if d = x then 0 else firstIdxOf x ds + 1

/-- Embeds `assign_cluster(distances)`:
`distances.index(min(distances)) + 1`.  On an empty list the Python builtin
`min` raises `ValueError` (the `InvalidArgument` kind of the spec). -/
def assign_cluster (distances : List ℚ) : Except String Nat :=
  match listMin distances with
  | none => Except.error "ValueError: min() arg is an empty sequence"
  | some m => Except.ok (firstIdxOf m distances + 1)

/-- Embeds the existing-label extraction in `main` (the
`if row[Kluster 1] == one ... elif ... elif ... ` chain, comparing the
flag fields as strings against the literal string of the digit one). -/
def existing_cluster (k1 k2 k3 : String) : Option Nat :=
  if k1 = "1" then some 1
  else if k2 = "1" then some 2
  else if k3 = "1" then some 3
  else none

/-- Embeds the per-row body of the loop in `main`: compute the distance
list, assign the cluster (propagating the `ValueError` of an empty
centroid list), extract the existing label, and build the result row. -/
def processRecord (centroids : List ℚ) (row : SalesRecord) : Option ResultRec :=
  let distances := calculate_distances row.omset centroids
  match assign_cluster distances with
  | Except.error _ => none
  | Except.ok c =>
      some { dataId := row.dataId, namaToko := row.namaToko,
             namaProduk := row.namaProduk, omset := row.omset,
             calculatedCluster := c,
             existingCluster := existing_cluster row.kluster1 row.kluster2 row.kluster3,
             distances := distances }

/-- Distinct values of a list in first-occurrence order: the key order of
a Python `Counter` (insertion-ordered dict) built from the list. -/
def firstOccs : List String → List String
  | [] => []
  | p :: ps => p :: (firstOccs ps).filter (fun q => q ≠ p)

/-- Embeds `Counter(cluster_data[nama Produk])`: an association list in
first-occurrence order mapping each distinct product name to its number
of occurrences. -/
def counterItems (l : List String) : List (String × Nat) :=
  (firstOccs l).map (fun p => (p, l.count p))

/-- Stable descending insertion by count: an earlier item stays before
any later item of equal count. -/
def insertD (x : String × Nat) : List (String × Nat) → List (String × Nat)
  | [] => [x]
  | y :: ys => if y.2 ≤ x.2 then x :: y :: ys else y :: insertD x ys

/-- Stable sort by descending count, the ordering contract of
`heapq.nlargest` (hence of `Counter.most_common`): sorted by count
descending, ties kept in input order. -/
def sortD : List (String × Nat) → List (String × Nat)
  | [] => []
  | x :: xs => insertD x (sortD xs)

/-- Embeds `Counter(...).most_common(3)`: the three largest counts in
stable descending order. -/
def most_common3 (l : List String) : List (String × Nat) :=
  (sortD (counterItems l)).take 3

/-- Embeds `[prod[0] for prod in top_products]`. -/
def dominant_products (l : List String) : List String :=
  (most_common3 l).map Prod.fst

/-- Embeds the `if cluster == 1 ... elif ... else` characteristic
strings of `analyze_cluster_characteristics`. -/
def characteristicsFor (cluster : Nat) : String :=
  if cluster = 1 then "Toko dengan penjualan rendah atau baru memulai"
  else if cluster = 2 then "Toko dengan stabilitas penjualan menengah"
  else "Toko dengan performa penjualan tinggi"

/-- Embeds `pandas.Series.mean()`: `NaN` (no data, modelled `none`) on
an empty series, otherwise the arithmetic mean. -/
def seriesMean (xs : List ℚ) : Option ℚ :=
  if xs = [] then none else some (xs.sum / xs.length)

/-- Embeds one entry of the dictionary built by
`analyze_cluster_characteristics`. -/
structure ClusterInfo where
  avg_omset : Option ℚ
  characteristics : String
  dominant_products : List String

/-- Embeds the per-cluster body of `analyze_cluster_characteristics`:
filter the results to the rows whose `Calculated Cluster` equals the
given id, average their `Omset`, count their product names. -/
def analyze_cluster_characteristics (results : List ResultRec) (cluster : Nat) :
    ClusterInfo :=
  let cluster_data := results.filter (fun r => r.calculatedCluster = cluster)
  { avg_omset := seriesMean (cluster_data.map (fun r => r.omset))
  , characteristics := characteristicsFor cluster
  , dominant_products := dominant_products (cluster_data.map (fun r => r.namaProduk)) }

/-- A result row counts as a match when its existing label equals its
calculated cluster; comparing the integer cluster with Python `None`
is always false. -/
def isMatch (r : ResultRec) : Bool :=
  r.existingCluster = some r.calculatedCluster

/-- Embeds `len(results_df)` in the summary sheet. -/
def totalRecords (results : List ResultRec) : Nat := results.length

/-- Embeds `sum(results_df[Calculated Cluster] == results_df[Existing Cluster])`. -/
def matchingClusters (results : List ResultRec) : Nat :=
  (results.filter isMatch).length

/-- Embeds the `Match Percentage` entry
`(sum(calculated == existing) / len(results_df)) * 100`; on an empty
result set the division raises `ZeroDivisionError`. -/
def match_percentage (results : List ResultRec) : Except String ℚ :=
  if results.length = 0 then Except.error "ZeroDivisionError"
  else Except.ok ((matchingClusters results : ℚ) / (totalRecords results : ℚ) * 100)

/-- Maps a result row to the same row with its existing label erased;
used to state that the analyzer partitions by calculated cluster only. -/
def scrubExisting (r : ResultRec) : ResultRec :=
  { r with existingCluster := none }

/-- Decimal value of a digit string, most significant digit first. -/
def digitsVal (l : List Char) : Nat :=
  l.foldl (fun a c => a * 10 + (c.toNat - 48)) 0

/-- Models Python `float()` on plain unsigned decimal text: digits with
an optional decimal point (at least one digit overall); anything else
is a `ValueError` (exponents and the special forms are outside the data
domain of the revenue column). -/
def pyFloatCore (sign : ℚ) (l : List Char) : Option ℚ :=
  let intPart := l.takeWhile (fun c => c ≠ '.')
  let rest := l.dropWhile (fun c => c ≠ '.')
  match rest with
  | [] =>
      if intPart ≠ [] ∧ intPart.all Char.isDigit
      then some (sign * (digitsVal intPart : ℚ))
      else none
  | _ :: frac =>
      if (intPart ≠ [] ∨ frac ≠ []) ∧ intPart.all Char.isDigit ∧ frac.all Char.isDigit
      then some (sign * ((digitsVal intPart : ℚ) +
        (digitsVal frac : ℚ) / (10 : ℚ) ^ frac.length))
      else none

/-- Models Python `float()` on decimal text with an optional leading
sign. -/
def pyFloat : List Char → Option ℚ
  | [] => none
  | c :: r =>
      if c = '-' then pyFloatCore (-1) r
      else if c = '+' then pyFloatCore 1 r
      else pyFloatCore 1 (c :: r)

/-- Removes every comma, the contract of `str.replace` of comma by nothing. -/
def stripCommasL (l : List Char) : List Char :=
  l.filter (fun c => c ≠ ',')

/-- Embeds the revenue normalization of `load_data` on one cell:
`df[Omset].str.replace` removing commas then `astype(float)` — strip all commas,
then convert; a failed conversion raises `ValueError` (`none`). -/
def load_omset (l : List Char) : Option ℚ :=
  pyFloat (stripCommasL l)

/-! ### Lemmas about the minimum fold and the first-index scan -/

theorem foldlMin_le_init (ds : List ℚ) (d : ℚ) : ds.foldl min d ≤ d := by
  induction ds generalizing d with
  | nil => simp
  | cons e es ih =>
      calc (e :: es).foldl min d = es.foldl min (min d e) := rfl
        _ ≤ min d e := ih (min d e)
        _ ≤ d := min_le_left d e

theorem foldlMin_mem (ds : List ℚ) (d : ℚ) : ds.foldl min d ∈ d :: ds := by
  induction ds generalizing d with
  | nil => simp
  | cons e es ih =>
      have h := ih (min d e)
      show es.foldl min (min d e) ∈ d :: e :: es
      rcases List.mem_cons.mp h with h1 | h2
      · rcases min_choice d e with hd | he
        · rw [h1, hd]; exact List.mem_cons_self _ _
        · rw [h1, he]; exact List.mem_cons.mpr (Or.inr (List.mem_cons_self _ _))
      · exact List.mem_cons.mpr (Or.inr (List.mem_cons.mpr (Or.inr h2)))

theorem foldlMin_le_mem (ds : List ℚ) (d x : ℚ) (hx : x ∈ d :: ds) :
    ds.foldl min d ≤ x := by
  induction ds generalizing d with
  | nil =>
      rcases List.mem_cons.mp hx with h | h
      · simp [h]
      · simp at h
  | cons e es ih =>
      rcases List.mem_cons.mp hx with h | h
      · calc (e :: es).foldl min d ≤ min d e := foldlMin_le_init es (min d e)
          _ ≤ d := min_le_left d e
          _ = x := h.symm
      · rcases List.mem_cons.mp h with h1 | h2
        · calc (e :: es).foldl min d ≤ min d e := foldlMin_le_init es (min d e)
            _ ≤ e := min_le_right d e
            _ = x := h1.symm
        · exact ih (min d e) (List.mem_cons.mpr (Or.inr h2))

theorem firstIdxOf_lt_length (x : ℚ) (ds : List ℚ) (hx : x ∈ ds) :
    firstIdxOf x ds < ds.length := by
  induction ds with
  | nil => simp at hx
  | cons d rest ih =>
      by_cases h : d = x
      · simp [firstIdxOf, h]
      · rcases List.mem_cons.mp hx with h1 | h2
        · exact absurd h1.symm h
        · simpa [firstIdxOf, h] using ih h2

theorem getD_firstIdxOf (x : ℚ) (ds : List ℚ) (hx : x ∈ ds) :
    ds.getD (firstIdxOf x ds) 0 = x := by
  induction ds with
  | nil => simp at hx
  | cons d rest ih =>
      by_cases h : d = x
      · simp [firstIdxOf, h]
      · rcases List.mem_cons.mp hx with h1 | h2
        · exact absurd h1.symm h
        · simpa [firstIdxOf, h] using ih h2

theorem getD_ne_of_lt_firstIdxOf (x : ℚ) (ds : List ℚ) (j : Nat)
    (hj : j < firstIdxOf x ds) : ds.getD j 0 ≠ x := by
  induction ds generalizing j with
  | nil => simp [firstIdxOf] at hj
  | cons d rest ih =>
      by_cases h : d = x
      · simp [firstIdxOf, h] at hj
      · cases j with
        | zero => simpa using h
        | succ k =>
            have hk : k < firstIdxOf x rest := by
              simpa [firstIdxOf, h, Nat.succ_lt_succ_iff] using hj
            simpa using ih k hk

/-- C1: on every non-empty distance list, `assign_cluster` returns one
plus the first index achieving the minimum distance (the element there
is minimal, and every earlier element is strictly greater); in
particular a revenue equal to centroid 2 gets distance 0 to it and is
assigned cluster 2. -/
theorem assign_cluster_first_argmin (ds : List ℚ) (h : ds ≠ []) :
    (∃ i, i < ds.length ∧ assign_cluster ds = Except.ok (i + 1) ∧
      (∀ j, j < ds.length → ds.getD i 0 ≤ ds.getD j 0) ∧
      (∀ j, j < i → ds.getD i 0 < ds.getD j 0)) ∧
    assign_cluster (calculate_distances 915000 [424000, 915000, 689155580.85])
      = Except.ok 2 := by
  constructor
  · match ds, h with
    | d :: rest, _ =>
      set m := rest.foldl min d with hm
      have hmem : m ∈ d :: rest := foldlMin_mem rest d
      have hle : ∀ x ∈ d :: rest, m ≤ x := fun x hx => foldlMin_le_mem rest d x hx
      refine ⟨firstIdxOf m (d :: rest), firstIdxOf_lt_length m (d :: rest) hmem, ?_, ?_, ?_⟩
      · simp [assign_cluster, listMin, ← hm]
      · intro j hj
        rw [getD_firstIdxOf m (d :: rest) hmem]
        exact hle _ (List.getD_eq_getElem (d :: rest) 0 hj ▸ List.getElem_mem hj)
      · intro j hj
        rw [getD_firstIdxOf m (d :: rest) hmem]
        have hjlen : j < (d :: rest).length :=
          Nat.lt_trans hj (firstIdxOf_lt_length m (d :: rest) hmem)
        have hge : m ≤ (d :: rest).getD j 0 :=
          hle _ (List.getD_eq_getElem (d :: rest) 0 hjlen ▸ List.getElem_mem hjlen)
        have hne : (d :: rest).getD j 0 ≠ m := getD_ne_of_lt_firstIdxOf m (d :: rest) j hj
        exact lt_of_le_of_ne hge (Ne.symm hne)
  · simp [assign_cluster, calculate_distances, listMin, firstIdxOf, min_def]
    norm_num

/-- Witness for C1 at the concrete distance list `[3, 1, 1]`. -/
theorem assign_cluster_first_argmin_witness :
    (∃ i, i < [(3 : ℚ), 1, 1].length ∧
      assign_cluster [(3 : ℚ), 1, 1] = Except.ok (i + 1) ∧
      (∀ j, j < [(3 : ℚ), 1, 1].length →
        [(3 : ℚ), 1, 1].getD i 0 ≤ [(3 : ℚ), 1, 1].getD j 0) ∧
      (∀ j, j < i → [(3 : ℚ), 1, 1].getD i 0 < [(3 : ℚ), 1, 1].getD j 0)) ∧
    assign_cluster (calculate_distances 915000 [424000, 915000, 689155580.85])
      = Except.ok 2 :=
  assign_cluster_first_argmin [3, 1, 1] (by simp)

/-- C2: the existing-label extraction checks `flag1`, `flag2`, `flag3`
in that order against the literal string of the digit one, first match
wins, returns `none` when no flag matches, and compares flags as text
(numeric-looking or truthy strings other than the exact literal are not
accepted). -/
theorem existing_cluster_spec (k1 k2 k3 : String) :
    (k1 = "1" → existing_cluster k1 k2 k3 = some 1) ∧
    (k1 ≠ "1" → k2 = "1" → existing_cluster k1 k2 k3 = some 2) ∧
    (k1 ≠ "1" → k2 ≠ "1" → k3 = "1" → existing_cluster k1 k2 k3 = some 3) ∧
    (k1 ≠ "1" → k2 ≠ "1" → k3 ≠ "1" → existing_cluster k1 k2 k3 = none) ∧
    existing_cluster "1" "1" "1" = some 1 ∧
    existing_cluster "01" "1.0" "true" = none := by
  refine ⟨?_, ?_, ?_, ?_, ?_, ?_⟩
  · intro h1; simp [existing_cluster, h1]
  · intro h1 h2; simp [existing_cluster, h1, h2]
  · intro h1 h2 h3; simp [existing_cluster, h1, h2, h3]
  · intro h1 h2 h3; simp [existing_cluster, h1, h2, h3]
  · rfl
  · rfl

/-- Witness for C2 at the concrete flags `"0" "1" "0"`. -/
theorem existing_cluster_spec_witness :
    existing_cluster "0" "1" "0" = some 2 :=
  (existing_cluster_spec "0" "1" "0").2.1 (by decide) rfl

/-- C8: on the empty distance list `assign_cluster` fails (Python
`min([])` raises `ValueError`, the `InvalidArgument` case of the spec for an
empty distance list). -/
theorem assign_cluster_empty_fails :
    assign_cluster [] = Except.error "ValueError: min() arg is an empty sequence" :=
  rfl

/-- C6: on a non-empty result set the match percentage equals
`100 * matching / total`; on an empty result set the division raises
(`ZeroDivisionError`), so the percentage is never produced. -/
theorem match_percentage_spec (results : List ResultRec) :
    (results.length ≠ 0 →
      match_percentage results =
        Except.ok (100 * (matchingClusters results : ℚ) / (totalRecords results : ℚ))) ∧
    (results.length = 0 →
      match_percentage results = Except.error "ZeroDivisionError") := by
  constructor
  · intro h
    simp only [match_percentage, if_neg h]
    congr 1
    ring
  · intro h
    simp [match_percentage, h]

/-- Witness for C6 at a one-record result set and at the empty result
set. -/
theorem match_percentage_spec_witness :
    match_percentage [⟨"d1", "t1", "p1", 5, 1, some 1, [0]⟩] =
      Except.ok (100 * (matchingClusters [⟨"d1", "t1", "p1", 5, 1, some 1, [0]⟩] : ℚ) /
        (totalRecords [⟨"d1", "t1", "p1", 5, 1, some 1, [0]⟩] : ℚ)) ∧
    match_percentage [] = Except.error "ZeroDivisionError" :=
  ⟨(match_percentage_spec [⟨"d1", "t1", "p1", 5, 1, some 1, [0]⟩]).1 (by simp),
   (match_percentage_spec []).2 rfl⟩

/-- C7: a processed record none of whose flags is the literal string of
the digit one gets existing label `none`; appending such a record to a
result set increases the total-record count by one but never the
matching-clusters count, whatever its calculated cluster. -/
theorem unlabeled_record_counted_never_matches (centroids : List ℚ)
    (row : SalesRecord) (res : ResultRec) (results : List ResultRec)
    (hproc : processRecord centroids row = some res)
    (h1 : row.kluster1 ≠ "1") (h2 : row.kluster2 ≠ "1") (h3 : row.kluster3 ≠ "1") :
    res.existingCluster = none ∧ isMatch res = false ∧
    totalRecords (results ++ [res]) = totalRecords results + 1 ∧
    matchingClusters (results ++ [res]) = matchingClusters results := by
  have hnone : res.existingCluster = none := by
    simp only [processRecord] at hproc
    cases hassign : assign_cluster (calculate_distances row.omset centroids) with
    | error e => simp [hassign] at hproc
    | ok c =>
        simp only [hassign] at hproc
        simp at hproc
        rw [← hproc]
        simp [existing_cluster, h1, h2, h3]
  have hmatch : isMatch res = false := by
    simp [isMatch, hnone]
  refine ⟨hnone, hmatch, ?_, ?_⟩
  · simp [totalRecords]
  · simp [matchingClusters, List.filter_append, hmatch]

/-- Witness for C7 at centroid list `[0]` and a record with all flags
`"0"`. -/
theorem unlabeled_record_counted_never_matches_witness :
    (⟨"d1", "t1", "p1", 0, 1, none, [0]⟩ : ResultRec).existingCluster = none ∧
    isMatch ⟨"d1", "t1", "p1", 0, 1, none, [0]⟩ = false ∧
    totalRecords ([] ++ [⟨"d1", "t1", "p1", 0, 1, none, [0]⟩]) = totalRecords [] + 1 ∧
    matchingClusters ([] ++ [⟨"d1", "t1", "p1", 0, 1, none, [0]⟩]) = matchingClusters [] :=
  unlabeled_record_counted_never_matches [0] ⟨"d1", "t1", "p1", 0, "0", "0", "0"⟩
    ⟨"d1", "t1", "p1", 0, 1, none, [0]⟩ []
    (by simp [processRecord, calculate_distances, assign_cluster, listMin, firstIdxOf,
          existing_cluster])
    (by decide) (by decide) (by decide)

/-- C3: for a cluster id with at least one assigned record, the
average revenue computed by the analyzer is the arithmetic mean of the revenue over
exactly the records whose calculated cluster equals that id, and the
analyzer output does not depend on the existing labels at all. -/
theorem avg_omset_is_mean_of_calculated (results : List ResultRec) (c : Nat)
    (h : results.filter (fun r => r.calculatedCluster = c) ≠ []) :
    (analyze_cluster_characteristics results c).avg_omset =
      some (((results.filter (fun r => r.calculatedCluster = c)).map (fun r => r.omset)).sum /
        ((results.filter (fun r => r.calculatedCluster = c)).map (fun r => r.omset)).length) ∧
    analyze_cluster_characteristics (results.map scrubExisting) c =
      analyze_cluster_characteristics results c := by
  constructor
  · have hmap : (results.filter (fun r => r.calculatedCluster = c)).map (fun r => r.omset) ≠ [] := by
      simpa using h
    simp [analyze_cluster_characteristics, seriesMean, hmap]
  · have hfilter : (results.map scrubExisting).filter (fun r => r.calculatedCluster = c) =
        (results.filter (fun r => r.calculatedCluster = c)).map scrubExisting := by
      rw [List.filter_map]
      rfl
    simp only [analyze_cluster_characteristics, hfilter, List.map_map]
    rfl

/-- Witness for C3 at a one-record result set. -/
theorem avg_omset_is_mean_of_calculated_witness :
    (analyze_cluster_characteristics [⟨"d1", "t1", "p1", 4, 1, some 2, [0]⟩] 1).avg_omset =
      some ((([⟨"d1", "t1", "p1", 4, 1, some 2, [0]⟩].filter
          (fun r => ResultRec.calculatedCluster r = 1)).map (fun r => r.omset)).sum /
        (([⟨"d1", "t1", "p1", 4, 1, some 2, [0]⟩].filter
          (fun r => ResultRec.calculatedCluster r = 1)).map (fun r => r.omset)).length) ∧
    analyze_cluster_characteristics ([⟨"d1", "t1", "p1", 4, 1, some 2, [0]⟩].map scrubExisting) 1 =
      analyze_cluster_characteristics [⟨"d1", "t1", "p1", 4, 1, some 2, [0]⟩] 1 :=
  avg_omset_is_mean_of_calculated [⟨"d1", "t1", "p1", 4, 1, some 2, [0]⟩] 1 (by simp)

/-- C5: a cluster id with no assigned records is handled without
failing: the average is the no-data value (`NaN` from pandas on an
empty series, modelled `none`), the dominant-product list is empty, and
the fixed characteristic string for the id is still produced. -/
theorem empty_cluster_graceful (results : List ResultRec) (c : Nat)
    (h : results.filter (fun r => r.calculatedCluster = c) = []) :
    (analyze_cluster_characteristics results c).avg_omset = none ∧
    (analyze_cluster_characteristics results c).dominant_products = [] ∧
    (analyze_cluster_characteristics results c).characteristics = characteristicsFor c ∧
    (c = 1 → characteristicsFor c = "Toko dengan penjualan rendah atau baru memulai") ∧
    (c = 2 → characteristicsFor c = "Toko dengan stabilitas penjualan menengah") ∧
    (c = 3 → characteristicsFor c = "Toko dengan performa penjualan tinggi") := by
  refine ⟨?_, ?_, rfl, ?_, ?_, ?_⟩
  · simp [analyze_cluster_characteristics, seriesMean, h]
  · simp [analyze_cluster_characteristics, h, dominant_products, most_common3,
      counterItems, firstOccs, sortD]
  · intro hc; simp [characteristicsFor, hc]
  · intro hc; simp [characteristicsFor, hc]
  · intro hc; simp [characteristicsFor, hc]

/-! ### Lemmas about the stable descending sort behind `most_common` -/

theorem mem_insertD (x y : String × Nat) (s : List (String × Nat)) :
    y ∈ insertD x s ↔ y = x ∨ y ∈ s := by
  induction s with
  | nil => simp [insertD]
  | cons z zs ih =>
      by_cases h : z.2 ≤ x.2
      · simp [insertD, h]
      · simp [insertD, h, ih]
        tauto

theorem length_insertD (x : String × Nat) (s : List (String × Nat)) :
    (insertD x s).length = s.length + 1 := by
  induction s with
  | nil => rfl
  | cons z zs ih =>
      by_cases h : z.2 ≤ x.2
      · simp [insertD, h]
      · simp [insertD, h, ih]

theorem mem_sortD (y : String × Nat) (s : List (String × Nat)) :
    y ∈ sortD s ↔ y ∈ s := by
  induction s with
  | nil => simp [sortD]
  | cons z zs ih => simp [sortD, mem_insertD, ih]

theorem length_sortD (s : List (String × Nat)) : (sortD s).length = s.length := by
  induction s with
  | nil => rfl
  | cons z zs ih => simp [sortD, length_insertD, ih]

theorem insertD_pairwise (x : String × Nat) (s : List (String × Nat))
    (hs : s.Pairwise (fun a b => b.2 ≤ a.2)) :
    (insertD x s).Pairwise (fun a b => b.2 ≤ a.2) := by
  induction s with
  | nil => simp [insertD]
  | cons z zs ih =>
      rcases List.pairwise_cons.mp hs with ⟨hz, hzs⟩
      by_cases h : z.2 ≤ x.2
      · rw [show insertD x (z :: zs) = x :: z :: zs from by simp [insertD, h]]
        refine List.pairwise_cons.mpr ⟨?_, hs⟩
        intro a ha
        rcases List.mem_cons.mp ha with h1 | h2
        · rw [h1]; exact h
        · exact le_trans (hz a h2) h
      · rw [show insertD x (z :: zs) = z :: insertD x zs from by simp [insertD, h]]
        refine List.pairwise_cons.mpr ⟨?_, ih hzs⟩
        intro a ha
        rcases (mem_insertD x a zs).mp ha with h1 | h2
        · rw [h1]; exact le_of_lt (lt_of_not_le h)
        · exact hz a h2

theorem sortD_pairwise (s : List (String × Nat)) :
    (sortD s).Pairwise (fun a b => b.2 ≤ a.2) := by
  induction s with
  | nil => simp [sortD]
  | cons z zs ih => exact insertD_pairwise z (sortD zs) ih

theorem filter_insertD (c : Nat) (x : String × Nat) (s : List (String × Nat)) :
    (insertD x s).filter (fun q => q.2 = c) =
      if x.2 = c then x :: s.filter (fun q => q.2 = c)
      else s.filter (fun q => q.2 = c) := by
  induction s with
  | nil => by_cases hx : x.2 = c <;> simp [insertD, hx]
  | cons z zs ih =>
      by_cases h : z.2 ≤ x.2
      · rw [show insertD x (z :: zs) = x :: z :: zs from by simp [insertD, h]]
        by_cases hx : x.2 = c <;> simp [List.filter_cons, hx]
      · rw [show insertD x (z :: zs) = z :: insertD x zs from by simp [insertD, h]]
        by_cases hx : x.2 = c
        · have hz1 : ¬ z.2 = c := fun hzc => h (le_of_eq (hzc.trans hx.symm))
          simp [List.filter_cons, hz1, ih, hx]
        · by_cases hz : z.2 = c <;> simp [List.filter_cons, hz, ih, hx]

theorem filter_sortD (c : Nat) (s : List (String × Nat)) :
    (sortD s).filter (fun q => q.2 = c) = s.filter (fun q => q.2 = c) := by
  induction s with
  | nil => rfl
  | cons z zs ih =>
      by_cases h : z.2 = c
      · simp [sortD, filter_insertD, h, List.filter_cons, ih]
      · simp [sortD, filter_insertD, h, List.filter_cons, ih]

theorem mem_firstOccs (a : String) (l : List String) :
    a ∈ firstOccs l ↔ a ∈ l := by
  induction l with
  | nil => simp [firstOccs]
  | cons p ps ih =>
      by_cases h : a = p
      · simp [firstOccs, h]
      · simp [firstOccs, List.mem_filter, h, ih]

theorem length_counterItems (l : List String) :
    (counterItems l).length = (firstOccs l).length := by
  simp [counterItems]

theorem counts_counterItems (q : String × Nat) (l : List String)
    (hq : q ∈ counterItems l) : q.2 = l.count q.1 := by
  rcases List.mem_map.mp hq with ⟨p, _, hpq⟩
  rw [← hpq]

theorem keys_counterItems (l : List String) :
    (counterItems l).map Prod.fst = firstOccs l := by
  rw [counterItems, List.map_map]
  exact List.map_id (firstOccs l)

/-- C4: the dominant-product list of a cluster has length
`min 3 (number of distinct products)`, every listed product occurs in
the rows of that cluster, the selected pairs carry the true occurrence
counts and are ordered by non-increasing count, and products of any
fixed count appear in first-encountered order (a sublist of the
first-occurrence ordering of the product names of the cluster). -/
theorem dominant_products_spec (results : List ResultRec) (cluster : Nat) :
    ((analyze_cluster_characteristics results cluster).dominant_products =
      dominant_products ((results.filter (fun r => r.calculatedCluster = cluster)).map
        (fun r => r.namaProduk))) ∧
    (∀ l : List String,
      (dominant_products l).length = min 3 (firstOccs l).length ∧
      (∀ p ∈ dominant_products l, p ∈ l) ∧
      (most_common3 l).Pairwise (fun a b => b.2 ≤ a.2) ∧
      (∀ q ∈ most_common3 l, q.2 = l.count q.1) ∧
      (∀ c : Nat, (((most_common3 l).filter (fun q => q.2 = c)).map Prod.fst).Sublist
        (firstOccs l))) := by
  constructor
  · rfl
  · intro l
    refine ⟨?_, ?_, ?_, ?_, ?_⟩
    · simp [dominant_products, most_common3, length_sortD, length_counterItems]
    · intro p hp
      rcases List.mem_map.mp hp with ⟨q, hq, hqp⟩
      have hq2 : q ∈ sortD (counterItems l) := (List.take_sublist 3 _).mem hq
      have hq3 : q ∈ counterItems l := (mem_sortD q _).mp hq2
      rcases List.mem_map.mp hq3 with ⟨a, ha, haq⟩
      have : p = a := by rw [← hqp, ← haq]
      rw [this]
      exact (mem_firstOccs a l).mp ha
    · exact List.Pairwise.sublist (List.take_sublist 3 _) (sortD_pairwise (counterItems l))
    · intro q hq
      have hq2 : q ∈ sortD (counterItems l) := (List.take_sublist 3 _).mem hq
      exact counts_counterItems q l ((mem_sortD q _).mp hq2)
    · intro c
      have h1 : ((most_common3 l).filter (fun q => q.2 = c)).Sublist
          ((sortD (counterItems l)).filter (fun q => q.2 = c)) :=
        (List.take_sublist 3 _).filter _
      have h2 : ((sortD (counterItems l)).filter (fun q => q.2 = c)) =
          (counterItems l).filter (fun q => q.2 = c) := filter_sortD c _
      have h3 : (((counterItems l).filter (fun q => q.2 = c)).map Prod.fst).Sublist
          ((counterItems l).map Prod.fst) :=
        (List.filter_sublist _).map Prod.fst
      have h4 : (((most_common3 l).filter (fun q => q.2 = c)).map Prod.fst).Sublist
          (((counterItems l).filter (fun q => q.2 = c)).map Prod.fst) := by
        rw [← h2]; exact h1.map Prod.fst
      exact keys_counterItems l ▸ (h4.trans h3)

/-- Witness for C4 at a two-record result set. -/
theorem dominant_products_spec_witness :
    ((analyze_cluster_characteristics [⟨"d1", "t1", "pa", 1, 1, none, [0]⟩] 1).dominant_products =
      dominant_products (([⟨"d1", "t1", "pa", 1, 1, none, [0]⟩].filter
        (fun r => ResultRec.calculatedCluster r = 1)).map (fun r => r.namaProduk))) ∧
    (∀ l : List String,
      (dominant_products l).length = min 3 (firstOccs l).length ∧
      (∀ p ∈ dominant_products l, p ∈ l) ∧
      (most_common3 l).Pairwise (fun a b => b.2 ≤ a.2) ∧
      (∀ q ∈ most_common3 l, q.2 = l.count q.1) ∧
      (∀ c : Nat, (((most_common3 l).filter (fun q => q.2 = c)).map Prod.fst).Sublist
        (firstOccs l))) :=
  dominant_products_spec [⟨"d1", "t1", "pa", 1, 1, none, [0]⟩] 1

/-- Witness for C5 at the empty result set and cluster id 2. -/
theorem empty_cluster_graceful_witness :
    (analyze_cluster_characteristics [] 2).avg_omset = none ∧
    (analyze_cluster_characteristics [] 2).dominant_products = [] ∧
    (analyze_cluster_characteristics [] 2).characteristics = characteristicsFor 2 ∧
    ((2 : Nat) = 1 → characteristicsFor 2 = "Toko dengan penjualan rendah atau baru memulai") ∧
    ((2 : Nat) = 2 → characteristicsFor 2 = "Toko dengan stabilitas penjualan menengah") ∧
    ((2 : Nat) = 3 → characteristicsFor 2 = "Toko dengan performa penjualan tinggi") :=
  empty_cluster_graceful [] 2 rfl

/-- C9 counterexample: at revenue 500000 against the centroids of the run,
the third distance is 688655580.85, strictly below the 689154580.85
claimed by the scenario, so the claimed distance list is wrong. -/
theorem calculate_distances_scenario_cex :
    (calculate_distances 500000 [424000, 915000, 689155580.85]).getD 2 0 = 688655580.85 ∧
    (688655580.85 : ℚ) < 689154580.85 := by
  constructor
  · simp [calculate_distances]
    norm_num
  · norm_num

/-- C9 (amended): the distance list has the length of the centroid list, its
element `i` is `abs(revenue - centroid i)`, and revenue 500000 against
centroids `[424000, 915000, 689155580.85]` yields distances
`[76000, 415000, 688655580.85]` and assigned cluster 1. -/
theorem calculate_distances_spec (omset : ℚ) (centroids : List ℚ)
    (_h : centroids ≠ []) :
    (calculate_distances omset centroids).length = centroids.length ∧
    (∀ i, i < centroids.length →
      (calculate_distances omset centroids).getD i 0 = |omset - centroids.getD i 0|) ∧
    calculate_distances 500000 [424000, 915000, 689155580.85]
      = [76000, 415000, 688655580.85] ∧
    assign_cluster (calculate_distances 500000 [424000, 915000, 689155580.85])
      = Except.ok 1 := by
  have hlist : calculate_distances 500000 [424000, 915000, 689155580.85]
      = [76000, 415000, 688655580.85] := by
    simp [calculate_distances]
    norm_num
  refine ⟨by simp [calculate_distances], ?_, hlist, ?_⟩
  · intro i hi
    have h1 : i < (calculate_distances omset centroids).length := by
      simp [calculate_distances, hi]
    rw [List.getD_eq_getElem _ 0 h1, List.getD_eq_getElem _ 0 hi]
    simp [calculate_distances]
  · rw [hlist]
    simp [assign_cluster, listMin, firstIdxOf, min_def]
    norm_num

/-- Witness for the amended C9 at the scenario input. -/
theorem calculate_distances_spec_witness :
    (calculate_distances 500000 [424000, 915000, 689155580.85]).length
      = [(424000 : ℚ), 915000, 689155580.85].length ∧
    (∀ i, i < [(424000 : ℚ), 915000, 689155580.85].length →
      (calculate_distances 500000 [424000, 915000, 689155580.85]).getD i 0
        = |(500000 : ℚ) - [(424000 : ℚ), 915000, 689155580.85].getD i 0|) ∧
    calculate_distances 500000 [424000, 915000, 689155580.85]
      = [76000, 415000, 688655580.85] ∧
    assign_cluster (calculate_distances 500000 [424000, 915000, 689155580.85])
      = Except.ok 1 :=
  calculate_distances_spec 500000 [424000, 915000, 689155580.85] (by simp)

/-- C10: the revenue normalization deletes every comma wherever it
occurs (inserting a comma anywhere in the text never changes the
outcome, so malformed thousands grouping is accepted silently,
e.g. the text 1,2,3 parses as 123), and the conversion fails exactly
when the comma-stripped text is not valid decimal text. -/
theorem load_omset_spec :
    (∀ a b : List Char, load_omset (a ++ ',' :: b) = load_omset (a ++ b)) ∧
    load_omset ("1,2,3".data) = some 123 ∧
    load_omset ("1,234,567.89".data) = some 1234567.89 ∧
    (∀ l : List Char, load_omset l = pyFloat (stripCommasL l)) ∧
    (∀ l : List Char, load_omset l = none ↔ pyFloat (stripCommasL l) = none) := by
  refine ⟨?_, ?_, ?_, fun l => rfl, fun l => Iff.rfl⟩
  · intro a b
    have hstrip : stripCommasL (a ++ ',' :: b) = stripCommasL (a ++ b) := by
      simp [stripCommasL, List.filter_append, List.filter_cons]
    simp [load_omset, hstrip]
  · have h1 : stripCommasL ("1,2,3".data) = ['1', '2', '3'] := by decide
    have h2 : pyFloat ['1', '2', '3'] = some ((1 : ℚ) * ((123 : Nat) : ℚ)) := rfl
    rw [load_omset, h1, h2]
    norm_num
  · have h1 : stripCommasL ("1,234,567.89".data)
        = ['1', '2', '3', '4', '5', '6', '7', '.', '8', '9'] := by decide
    have h2 : pyFloat ['1', '2', '3', '4', '5', '6', '7', '.', '8', '9']
        = some ((1 : ℚ) * (((1234567 : Nat) : ℚ) + ((89 : Nat) : ℚ) / (10 : ℚ) ^ (2 : Nat))) :=
      rfl
    rw [load_omset, h1, h2]
    norm_num
